import Mathlib

/-!
Shallow embedding of the watch session engine of `pkg/watcher/metrics.go`
(the `ResourceWatcher` built by `NewResourceWatcher`): snapshot loading with
retry, the watch reconnection loop, and the event classifier/deduplicator of
`processWatchEvents`.  Go maps are embedded as association lists (insertion
overwrites), `time.Time` values as natural-number milliseconds, and the
Kubernetes client as explicit lists of connection attempts and stream events.
-/

namespace KWatch

/-- Association list standing for a Go `map[string]α`. -/
abbrev AList (α : Type) := List (String × α)

/-- Go map lookup `m[k]`. -/
def alookup {α : Type} (k : String) : AList α → Option α
  | [] => none
  | (k', v) :: rest => if k' = k then some v else alookup k rest

/-- Go `delete(m, k)`. -/
def aerase {α : Type} (k : String) : AList α → AList α
  | [] => []
  | (k', v) :: rest => if k' = k then aerase k rest else (k', v) :: aerase k rest

/-- Go map assignment `m[k] = v` (insert or overwrite). -/
def ainsert {α : Type} (k : String) (v : α) (m : AList α) : AList α :=
  (k, v) :: aerase k m

/-- `listIsPre sub l` holds when `sub` is a prefix of `l` (character lists). -/
def listIsPre : List Char → List Char → Bool
  | [], _ => true
  | _ :: _, [] => false
  | a :: as, b :: bs => a == b && listIsPre as bs

/-- Substring occurrence on character lists. -/
def listHasSub (sub : List Char) : List Char → Bool
  | [] => sub.isEmpty
  | c :: rest => listIsPre sub (c :: rest) || listHasSub sub rest

/-- Go `strings.Contains(s, sub)`. -/
def goContains (s sub : String) : Bool :=
  listHasSub sub.toList s.toList

/-- `config.ResourceConfig`: one resource filter (config/config.go). -/
structure ResourceConfig where
  kind : String
  ns : String
  resourceName : String
deriving DecidableEq

/-- The watcher tunables read by `runWatchLoop` (`config.Watcher`). -/
structure WatcherTuning where
  watchTimeoutSeconds : Int
deriving DecidableEq

/-- `resourceInfo`: value type of `watchState.InitialResources` (metrics.go
lines 179-182). -/
structure ResourceInfo where
  version : String
  lastSeen : Nat
deriving DecidableEq

/-- The metadata fields of an `unstructured.Unstructured` object that
`processWatchEvents` reads. `creationTimestamp = none` models a zero
`metav1.Time`. -/
structure ObjectMeta where
  ns : String
  name : String
  resourceVersion : String
  creationTimestamp : Option Nat
  annots : AList String
  labels : AList String
deriving DecidableEq

/-- The dynamic type of `event.Object` as discriminated by the type switches
in `processWatchEvents`: a `*metav1.Status`, an `*unstructured.Unstructured`,
or an unexpected type. -/
inductive WatchObject where
  | statusObj (status : String) (message : String)
  | object (m : ObjectMeta)
  | other
deriving DecidableEq

/-- A raw `watch.Event`: the event type string plus the carried object. -/
structure RawEvent where
  type : String
  obj : WatchObject
deriving DecidableEq

/-- `notifier.NotificationEvent` as filled by `processWatchEvents` before
`w.notifier.SendNotification`. -/
structure NotificationEvent where
  eventType : String
  resourceKind : String
  resourceName : String
  ns : String
  user : String
deriving DecidableEq

/-- The fields of `ResourceWatchState` that the engine mutates
(metrics.go lines 166-177).  The struct is held by pointer in Go, so its
mutations are shared between `runWatchLoop` and `processWatchEvents`. -/
structure WatchState where
  initialResources : AList ResourceInfo
  reconnectCount : Nat
  isInitialized : Bool
  consecutiveFailures : Nat
  lastHeartbeat : Nat
  connectionHealthy : Bool
  lastSuccessfulWatch : Nat
  watchOpen : Bool
deriving DecidableEq

/-- The mutable context of one `processWatchEvents` invocation: the shared
`watchState` (pointer), the shared `processedEvents` dedup map (Go maps are
reference types), and the function's own by-value copy of
`lastResourceVersion` (a Go string parameter). -/
structure ProcState where
  ws : WatchState
  processedEvents : AList Nat
  lastResourceVersion : String
deriving DecidableEq

/-- The annotation/label heuristic assigning `user` (metrics.go lines
820-835). -/
def getUser (m : ObjectMeta) : String :=
  let u1 :=
    match alookup "kubernetes.io/change-cause" m.annots with
    | some u => u
    | none =>
      match alookup "kubectl.kubernetes.io/last-applied-configuration" m.annots with
      | some u => if goContains u "kubectl" then "kubectl" else "unknown"
      | none => "unknown"
  match alookup "app.kubernetes.io/created-by" m.labels with
  | some u => u
  | none => u1

/-- The dedup key of lines 849-855:
`Type:Kind:Namespace:Name:ResourceVersion:ReconnectCount`. -/
def eventKeyOf (etype kindStr : String) (m : ObjectMeta) (gen : Nat) : String :=
  etype ++ ":" ++ kindStr ++ ":" ++ m.ns ++ ":" ++ m.name ++ ":" ++
    m.resourceVersion ++ ":" ++ toString gen

/-- The snapshot-map key `namespace/name` (line 869). -/
def resourceKeyOf (m : ObjectMeta) : String :=
  m.ns ++ "/" ++ m.name

/-- `watchState.InitialResources[key] = resourceInfo{version, lastSeen}`. -/
def upsertTracking (st : ProcState) (key : String) (v : ResourceInfo) : ProcState :=
  { st with ws := { st.ws with initialResources := ainsert key v st.ws.initialResources } }

/-- `delete(watchState.InitialResources, key)`. -/
def eraseTracking (st : ProcState) (key : String) : ProcState :=
  { st with ws := { st.ws with initialResources := aerase key st.ws.initialResources } }

/-- One iteration of the `for event := range watch.ResultChan()` loop of
`processWatchEvents` (lines 767-992), processed at wall-clock time `now`.
Returns the updated state, the notifications sent to the sink, and `false`
when the iteration executed `break` (a `Failure` status ends the stream). -/
def processOneEvent (cfg : ResourceConfig) (watchStart now : Nat)
    (st : ProcState) (e : RawEvent) : ProcState × List NotificationEvent × Bool :=
  let st := { st with ws := { st.ws with lastHeartbeat := now, connectionHealthy := true } }
  match e.obj with
  | WatchObject.statusObj s _ =>
    if s = "Failure" then (st, [], false) else (st, [], true)
  | WatchObject.other =>
    (st, [], true)
  | WatchObject.object m =>
    if e.type = "BOOKMARK" then
      ({ st with lastResourceVersion := m.resourceVersion }, [], true)
    else if cfg.resourceName ≠ "" ∧ m.name ≠ cfg.resourceName then
      (st, [], true)
    else
      let st := { st with lastResourceVersion := m.resourceVersion }
      let user := getUser m
      let ekey := eventKeyOf e.type cfg.kind m st.ws.reconnectCount
      if (alookup ekey st.processedEvents).isSome then
        (st, [], true)
      else
        let st := { st with processedEvents := ainsert ekey now st.processedEvents }
        let key := resourceKeyOf m
        let isExisting := (alookup key st.ws.initialResources).isSome
        match e.type with
        | "ADDED" =>
          let notifs :=
            if !isExisting then
              let shouldNotify : Bool :=
                match m.creationTimestamp with
                | some ct => decide (now - ct < (now - watchStart) + 30000)
                | none => decide (now - watchStart > 30000)
              if shouldNotify then
                [⟨"ADDED", cfg.kind, m.name, m.ns, user⟩]
              else []
            else []
          (upsertTracking st key ⟨m.resourceVersion, now⟩, notifs, true)
        | "MODIFIED" =>
          let notifs :=
            if now - watchStart > 30000 then
              match alookup key st.ws.initialResources with
              | some info =>
                if info.version ≠ m.resourceVersion then
                  [⟨"MODIFIED", cfg.kind, m.name, m.ns, user⟩]
                else []
              | none => [⟨"MODIFIED", cfg.kind, m.name, m.ns, user⟩]
            else []
          (upsertTracking st key ⟨m.resourceVersion, now⟩, notifs, true)
        | "DELETED" =>
          let notifs :=
            if now - watchStart > 30000 then
              [⟨"DELETED", cfg.kind, m.name, m.ns, user⟩]
            else []
          (eraseTracking st key, notifs, true)
        | _ => (st, [], true)

/-- The whole event loop of `processWatchEvents` over a finite stream of
timestamped events (the channel closing ends the list). -/
def processWatchEvents (cfg : ResourceConfig) (watchStart : Nat)
    (st : ProcState) (events : List (Nat × RawEvent)) :
    ProcState × List NotificationEvent :=
  match events with
  | [] => (st, [])
  | (t, e) :: rest =>
    let r := processOneEvent cfg watchStart t st e
    if r.2.2 then
      let r2 := processWatchEvents cfg watchStart r.1 rest
      (r2.1, r.2.1 ++ r2.2)
    else
      (r.1, r.2.1)

/-- Body of the 5-minute dedup-cleanup goroutine tick (lines 406-414):
entries older than one hour are deleted. -/
def cleanupProcessedEvents (now : Nat) (m : AList Nat) : AList Nat :=
  m.filter (fun p => ¬ (now - p.2 > 3600000))

/-- `wait.Backoff` with durations in milliseconds; `factor` and `jitter` are
the float fields as exact rationals. -/
structure Backoff where
  steps : Nat
  durationMs : Nat
  factor : Rat
  jitter : Rat
  capMs : Nat
deriving DecidableEq

/-- The backoff literal of `loadInitialResourcesWithRetry` (lines 424-430):
10 steps, base 1 s, factor 2.0, jitter 0.1, cap 5 min. -/
def snapshotBackoff : Backoff :=
  { steps := 10, durationMs := 1000, factor := 2, jitter := 1 / 10, capMs := 300000 }

/-- The identical backoff literal of `runWatchLoop` (lines 591-597). -/
def watchBackoff : Backoff :=
  { steps := 10, durationMs := 1000, factor := 2, jitter := 1 / 10, capMs := 300000 }

/-- Deterministic core of `wait.Backoff.Step`: returns the sleep duration and
the advanced backoff.  The random jitter multiplier (drawn from
`[1, 1+jitter)`) is taken at its lower bound 1, which claims here never
depend on. -/
def Backoff.stepDet (b : Backoff) : Nat × Backoff :=
  if b.steps < 1 then
    (b.durationMs, b)
  else
    let nextMs := b.durationMs
    let grown :=
      if b.factor ≠ 0 then (((b.durationMs : Int) * b.factor.num).toNat) / b.factor.den
      else b.durationMs
    let grown := if 0 < b.capMs ∧ b.capMs < grown then b.capMs else grown
    (nextMs, { b with durationMs := grown, steps := b.steps - 1 })

/-- `metav1.ListOptions` as filled for the Watch call (lines 621-629). -/
structure WatchOptions where
  timeoutSeconds : Int
  resourceVersion : String
  allowWatchBookmarks : Bool
  fieldSelector : Option String
deriving DecidableEq

/-- Lines 614-629: default 300 s per-connection timeout, resume from the
loop's `lastResourceVersion`, bookmarks enabled, optional exact-name
field selector. -/
def buildWatchOptions (tun : WatcherTuning) (cfg : ResourceConfig) (rv : String) : WatchOptions :=
  let timeoutSeconds : Int := if tun.watchTimeoutSeconds > 0 then tun.watchTimeoutSeconds else 300
  { timeoutSeconds := timeoutSeconds
    resourceVersion := rv
    allowWatchBookmarks := true
    fieldSelector := if cfg.resourceName ≠ "" then some ("metadata.name=" ++ cfg.resourceName) else none }

/-- Outcome of one `client.Resource(gvr).Namespace(ns).Watch(ctx, opts)`
call: either an error, or an established connection whose finite stream of
timestamped events is consumed until the channel closes. -/
inductive WatchAttempt where
  | fail (errMsg : String)
  | ok (events : List (Nat × RawEvent))
deriving DecidableEq

/-- What a reconnection-loop iteration did after the watch call. -/
inductive LoopAction where
  | tooOldReset (sleepMs : Nat)
  | errorBackoff (sleepMs : Nat)
  | streamEndReset (sleepMs : Nat)
  | streamEndBackoff (sleepMs : Nat)
deriving DecidableEq

/-- The local state of one `runWatchLoop` invocation: the shared
`watchState`, the dedup map, the loop's own `lastResourceVersion` variable,
and the `wait.Backoff` used for watch-creation errors. -/
structure LoopState where
  ws : WatchState
  processedEvents : AList Nat
  lastResourceVersion : String
  backoff : Backoff
deriving DecidableEq

/-- Result of one loop iteration. -/
structure StepResult where
  state : LoopState
  notifs : List NotificationEvent
  opts : WatchOptions
  action : LoopAction
deriving DecidableEq

/-- Lines 607-612: a watch the keep-alive goroutine marked unhealthy is
closed proactively before the next connection attempt. -/
def staleClose (ws : WatchState) : WatchState :=
  if ws.watchOpen ∧ ¬ ws.connectionHealthy then { ws with watchOpen := false } else ws

/-- One iteration of the `for` loop of `runWatchLoop` (lines 599-728),
executed at time `now`.  The `.fail` branch mirrors lines 634-669
(`too old resource version` reset at 648-658, exponential backoff
otherwise); the `.ok` branch mirrors lines 671-727: the stream is handed to
`processWatchEvents` — whose `lastResourceVersion` parameter is a Go string
passed BY VALUE, so the loop's own copy is not advanced by it — then
`ReconnectCount` is incremented and either the `> 5` reset (lines 703-714,
which also replaces `processedEvents` with a fresh map) or the linear
`min(ReconnectCount*5s, 30s)` backoff (lines 717-720) runs. -/
def runWatchStep (tun : WatcherTuning) (cfg : ResourceConfig) (watchStart now : Nat)
    (ls : LoopState) (att : WatchAttempt) : StepResult :=
  let ws0 := staleClose ls.ws
  let opts := buildWatchOptions tun cfg ls.lastResourceVersion
  match att with
  | WatchAttempt.fail msg =>
    let ws1 := { ws0 with consecutiveFailures := ws0.consecutiveFailures + 1, connectionHealthy := false }
    if goContains msg "too old resource version" then
      let wsR :=
        { ws1 with
          reconnectCount := 0
          initialResources := []
          isInitialized := false
          consecutiveFailures := 0 }
      { state := { ws := wsR, processedEvents := ls.processedEvents, lastResourceVersion := "", backoff := ls.backoff }
        notifs := []
        opts := opts
        action := LoopAction.tooOldReset 1000 }
    else
      let sb := ls.backoff.stepDet
      { state := { ws := ws1, processedEvents := ls.processedEvents, lastResourceVersion := ls.lastResourceVersion, backoff := sb.2 }
        notifs := []
        opts := opts
        action := LoopAction.errorBackoff sb.1 }
  | WatchAttempt.ok events =>
    let ws2 :=
      { ws0 with
        consecutiveFailures := 0
        lastSuccessfulWatch := now
        connectionHealthy := true
        watchOpen := true
        lastHeartbeat := now }
    let r := processWatchEvents cfg watchStart
      { ws := ws2, processedEvents := ls.processedEvents, lastResourceVersion := ls.lastResourceVersion } events
    let st1 : ProcState := r.1
    let ws3 : WatchState :=
      { st1.ws with reconnectCount := st1.ws.reconnectCount + 1, connectionHealthy := false, watchOpen := false }
    if ws3.reconnectCount > 5 then
      let wsR :=
        { ws3 with
          initialResources := []
          isInitialized := false
          reconnectCount := 0
          consecutiveFailures := 0 }
      { state := { ws := wsR, processedEvents := [], lastResourceVersion := "", backoff := ls.backoff }
        notifs := r.2
        opts := opts
        action := LoopAction.streamEndReset 30000 }
    else
      let d := min (ws3.reconnectCount * 5000) 30000
      { state := { ws := ws3, processedEvents := st1.processedEvents, lastResourceVersion := ls.lastResourceVersion, backoff := ls.backoff }
        notifs := r.2
        opts := opts
        action := LoopAction.streamEndBackoff d }

/-- Aggregate result of running the loop over a finite list of connection
attempts: final state, all notifications, and per-iteration trace of the
watch options used and the action taken. -/
structure LoopResult where
  state : LoopState
  notifs : List NotificationEvent
  trace : List (WatchOptions × LoopAction)
deriving DecidableEq

/-- `runWatchLoop` observed over a finite list of timestamped connection
attempts (the context cancelling ends the list). -/
def runWatchLoop (tun : WatcherTuning) (cfg : ResourceConfig) (watchStart : Nat)
    (ls : LoopState) (atts : List (Nat × WatchAttempt)) : LoopResult :=
  match atts with
  | [] => { state := ls, notifs := [], trace := [] }
  | (t, a) :: rest =>
    let r := runWatchStep tun cfg watchStart t ls a
    let r2 := runWatchLoop tun cfg watchStart r.state rest
    { state := r2.state, notifs := r.notifs ++ r2.notifs, trace := (r.opts, r.action) :: r2.trace }

/-- One page of items in `loadInitialResources` (lines 502-514): every item
is recorded in `InitialResources` and `lastResourceVersion` takes each
item's version in turn. -/
def applyListPage (now : Nat) (acc : String × AList ResourceInfo) (page : List ObjectMeta) :
    String × AList ResourceInfo :=
  page.foldl (fun a item => (item.resourceVersion, ainsert (resourceKeyOf item) ⟨item.resourceVersion, now⟩ a.2)) acc

/-- `loadInitialResources` over an already-fetched pagination (lines
466-524): folds all pages into the snapshot map, starting from the
`var lastResourceVersion string` zero value. -/
def loadInitialResources (now : Nat) (init : AList ResourceInfo) (pages : List (List ObjectMeta)) :
    String × AList ResourceInfo :=
  pages.foldl (applyListPage now) ("", init)

/-- Outcome of one call to `loadInitialResources` as seen by the retry
wrapper. -/
inductive LoadResult where
  | ok (rv : String) (resources : AList ResourceInfo)
  | err (msg : String)
deriving DecidableEq

/-- Whether the attempt failed. -/
def LoadResult.isErr : LoadResult → Bool
  | LoadResult.err _ => true
  | LoadResult.ok _ _ => false

/-- The `for attempt := 1; attempt <= backoff.Steps` loop of
`loadInitialResourcesWithRetry` (lines 436-463), over the outcomes of the
successive `loadInitialResources` calls: tries attempts `first`,
`first+1`, ... while `remaining` attempts are left. -/
def loadRetryAux (attempts : Nat → LoadResult) (first remaining : Nat) :
    Except String (String × AList ResourceInfo) :=
  match remaining with
  | 0 => Except.error "failed to load initial resources after 10 attempts"
  | r + 1 =>
    match attempts first with
    | LoadResult.ok rv res => Except.ok (rv, res)
    | LoadResult.err _ => loadRetryAux attempts (first + 1) r

/-- `loadInitialResourcesWithRetry` (lines 422-464): up to
`snapshotBackoff.steps = 10` attempts; exhausting them returns an error to
the caller (the session goroutine), nothing more. -/
def loadInitialResourcesWithRetry (attempts : Nat → LoadResult) :
    Except String (String × AList ResourceInfo) :=
  loadRetryAux attempts 1 snapshotBackoff.steps

/-- Whether an `Except` result is a success. -/
def exceptIsOk {ε α : Type} : Except ε α → Bool
  | Except.ok _ => true
  | Except.error _ => false

/-- The fresh `ResourceWatchState` of lines 326-332. -/
def initialWatchState (now : Nat) : WatchState :=
  { initialResources := []
    reconnectCount := 0
    isInitialized := false
    consecutiveFailures := 0
    lastHeartbeat := now
    connectionHealthy := false
    lastSuccessfulWatch := now
    watchOpen := false }

/-- `watchResource` (lines 305-420) from the snapshot-load step on: the
session exits (no watch ever opened) when `loadInitialResourcesWithRetry`
fails; otherwise the state is initialised from the snapshot and the watch
loop runs.  `none` models the bare `return` at line 356. -/
def watchResource (tun : WatcherTuning) (cfg : ResourceConfig)
    (attempts : Nat → LoadResult) (startTime : Nat)
    (atts : List (Nat × WatchAttempt)) : Option LoopResult :=
  match loadInitialResourcesWithRetry attempts with
  | Except.error _ => none
  | Except.ok (rv, res) =>
    let ws := { initialWatchState startTime with initialResources := res, isInitialized := true }
    some (runWatchLoop tun cfg startTime
      { ws := ws, processedEvents := [], lastResourceVersion := rv, backoff := watchBackoff } atts)

/-- `make(chan struct{}, 2)` of `NewResourceWatcher` (line 238). -/
def semaphoreCapacity : Nat := 2

/-- Abstract count of the per-filter session goroutines of `Start` (lines
250-270) by phase: waiting on the semaphore acquire `select`, abandoned by
the startup deadline, inside the snapshot load, steady-state watching, or
exited (deferred release executed). -/
structure GateState where
  pendingN : Nat
  abandonedN : Nat
  loadingN : Nat
  watchingN : Nat
  exitedN : Nat
deriving DecidableEq

/-- Number of sessions currently holding a semaphore slot: the slot is taken
before `watchResource` starts (so before the snapshot load) and the
deferred release runs only when the goroutine exits. -/
def GateState.holding (s : GateState) : Nat := s.loadingN + s.watchingN

/-- Transitions of the admission gate protocol of `Start`/`watchResource`:
`acquire` is the `w.semaphore <- struct{}{}` case (possible only while
fewer than `semaphoreCapacity` slots are held); `abandon` is the
`<-startupCtx.Done()` case; `snapshotOk`/`snapshotFail` end the snapshot
load (failure exits the session, running the deferred release);
`sessionExit` is a watching session unwinding on cancellation. -/
inductive GateStep : GateState → GateState → Prop where
  | acquire (s : GateState) (hp : 0 < s.pendingN) (hc : s.holding < semaphoreCapacity) :
      GateStep s { s with pendingN := s.pendingN - 1, loadingN := s.loadingN + 1 }
  | abandon (s : GateState) (hp : 0 < s.pendingN) :
      GateStep s { s with pendingN := s.pendingN - 1, abandonedN := s.abandonedN + 1 }
  | snapshotOk (s : GateState) (hl : 0 < s.loadingN) :
      GateStep s { s with loadingN := s.loadingN - 1, watchingN := s.watchingN + 1 }
  | snapshotFail (s : GateState) (hl : 0 < s.loadingN) :
      GateStep s { s with loadingN := s.loadingN - 1, exitedN := s.exitedN + 1 }
  | sessionExit (s : GateState) (hw : 0 < s.watchingN) :
      GateStep s { s with watchingN := s.watchingN - 1, exitedN := s.exitedN + 1 }

/-- `Start` launches all `n` sessions pending on the gate. -/
def initGate (n : Nat) : GateState :=
  { pendingN := n, abandonedN := 0, loadingN := 0, watchingN := 0, exitedN := 0 }

/-- States reachable from process start with `n` configured filters. -/
inductive GateReachable (n : Nat) : GateState → Prop where
  | init : GateReachable n (initGate n)
  | step {s t : GateState} : GateReachable n s → GateStep s t → GateReachable n t

/-! Concrete fixtures used by the example-level theorems. -/

/-- Filter watching all ConfigMaps of namespace `default`. -/
def cfgAll : ResourceConfig := { kind := "ConfigMap", ns := "default", resourceName := "" }

/-- Filter watching only the ConfigMap named `a`. -/
def cfgNamed : ResourceConfig := { kind := "ConfigMap", ns := "default", resourceName := "a" }

/-- Tuning with no overrides (all defaults apply). -/
def tunDefault : WatcherTuning := { watchTimeoutSeconds := 0 }

/-- Object metadata in namespace `default` with no annotations or labels. -/
def metaOf (name rv : String) (ct : Option Nat) : ObjectMeta :=
  { ns := "default", name := name, resourceVersion := rv, creationTimestamp := ct
    annots := [], labels := [] }

/-- A raw object event. -/
def objEvent (etype name rv : String) (ct : Option Nat) : RawEvent :=
  { type := etype, obj := WatchObject.object (metaOf name rv ct) }

/-- Loop state right after a successful snapshot load at time 0 that ended
at checkpoint version `rv` with an empty result. -/
def readyLoopState (rv : String) : LoopState :=
  { ws := { initialWatchState 0 with isInitialized := true }
    processedEvents := []
    lastResourceVersion := rv
    backoff := watchBackoff }

/-- Classifier state of a fresh session (watch started at time 0). -/
def emptyProc : ProcState :=
  { ws := initialWatchState 0, processedEvents := [], lastResourceVersion := "5" }

/-- A first stream that delivers one bookmark carrying resource version
`999` and then ends. -/
def c1Stream : List (Nat × RawEvent) :=
  [(100000, { type := "BOOKMARK", obj := WatchObject.object (metaOf "a" "999" none) })]

/-- Two successful connections: the bookmark stream, then an empty one. -/
def c1Atts : List (Nat × WatchAttempt) :=
  [(60000, WatchAttempt.ok c1Stream), (400000, WatchAttempt.ok [])]

/-- Six consecutive watch-open failures. -/
def failAtts : List (Nat × WatchAttempt) :=
  [(1, WatchAttempt.fail "connection refused"), (2, WatchAttempt.fail "connection refused"),
   (3, WatchAttempt.fail "connection refused"), (4, WatchAttempt.fail "connection refused"),
   (5, WatchAttempt.fail "connection refused"), (6, WatchAttempt.fail "connection refused")]

/-- Loop state holding one snapshot entry and checkpoint version `5`. -/
def c2Init : LoopState :=
  { ws := { initialWatchState 0 with isInitialized := true, initialResources := [("default/a", ⟨"1", 0⟩)] }
    processedEvents := []
    lastResourceVersion := "5"
    backoff := watchBackoff }

/-- Loop state whose dedup window holds one entry. -/
def c3Init : LoopState :=
  { ws := { initialWatchState 0 with isInitialized := true, initialResources := [("default/a", ⟨"1", 0⟩)] }
    processedEvents := [("k", 10)]
    lastResourceVersion := "5"
    backoff := watchBackoff }

/-- Classifier state whose dedup window already holds the key of a MODIFIED
event for object `a` at version `7` in generation 0. -/
def c5Dedup : ProcState :=
  { ws := initialWatchState 0
    processedEvents := [("MODIFIED:ConfigMap:default:a:7:0", 35000)]
    lastResourceVersion := "5" }

/-- An ADDED event for object `a` at version `7`, no creation timestamp. -/
def c6Ev : RawEvent := objEvent "ADDED" "a" "7" none

/-- State after the first (notified) delivery of `c6Ev` at t = 40 s. -/
def c6St1 : ProcState := (processOneEvent cfgAll 0 40000 emptyProc c6Ev).1

/-- The same state after the dedup janitor evicted the entry (one hour
passed). -/
def c6St2 : ProcState :=
  { c6St1 with processedEvents := cleanupProcessedEvents 4000000 c6St1.processedEvents }

/-- Loop state of a session whose fifth completed watch connection has
ended (`ReconnectCount = 5`). -/
def c2ResetInit : LoopState :=
  { c2Init with ws := { c2Init.ws with reconnectCount := 5 } }

/-- Classifier state tracking object `a` at version `1`. -/
def c9St : ProcState :=
  { ws := { initialWatchState 0 with initialResources := [("default/a", ⟨"1", 100⟩)] }
    processedEvents := []
    lastResourceVersion := "5" }

/-- A listing that fails on every attempt. -/
def allErrAttempts : Nat → LoadResult := fun _ => LoadResult.err "connection refused"

/-- C1: the resource version passed to the next Watch call does NOT advance
with the previous stream.  A first connection delivers a bookmark carrying
version 999 (the by-value copy inside `processWatchEvents` does advance to
999), yet both Watch calls are issued with the snapshot-time version 5:
`processWatchEvents` cannot return its updated `lastResourceVersion` to
`runWatchLoop`, so each reopened watch restarts from the stale checkpoint,
diverging from the claim. -/
theorem c1_next_watch_reuses_snapshot_version :
    (processWatchEvents cfgAll 0 emptyProc c1Stream).1.lastResourceVersion = "999" ∧
    (runWatchLoop tunDefault cfgAll 0 (readyLoopState "5") c1Atts).trace.map
      (fun p => p.1.resourceVersion) = ["5", "5"] := by
  decide

/-- C2 counterexample: six consecutive watch-OPEN failures do not trigger any
hard reset.  Every iteration takes the exponential-backoff branch
(1 s, 2 s, 4 s, 8 s, 16 s, 32 s), the snapshot map and checkpoint version
survive untouched, and `ReconnectCount` stays 0 (only ended streams
increment it), so no snapshot reload, no dedup clearing, no 30 s cooldown
happens after the 6th failure. -/
theorem c2_counterexample_six_open_failures_no_reset :
    (runWatchLoop tunDefault cfgAll 0 c2Init failAtts).trace.map (fun p => p.2) =
      [LoopAction.errorBackoff 1000, LoopAction.errorBackoff 2000,
       LoopAction.errorBackoff 4000, LoopAction.errorBackoff 8000,
       LoopAction.errorBackoff 16000, LoopAction.errorBackoff 32000] ∧
    (runWatchLoop tunDefault cfgAll 0 c2Init failAtts).state.ws.initialResources =
      [("default/a", ⟨"1", 0⟩)] ∧
    (runWatchLoop tunDefault cfgAll 0 c2Init failAtts).state.lastResourceVersion = "5" ∧
    (runWatchLoop tunDefault cfgAll 0 c2Init failAtts).state.ws.reconnectCount = 0 := by
  decide

/-- C3 counterexample: a `too old resource version` watch failure clears the
snapshot map but leaves the dedup window (`processedEvents`) untouched, so
the window is NOT empty immediately after the reset; and the loop simply
continues with an empty resource version — `loadInitialResources` is never
re-run. -/
theorem c3_counterexample_stale_reset_keeps_dedup_window :
    (runWatchStep tunDefault cfgAll 0 1000 c3Init
      (WatchAttempt.fail "too old resource version: 123 (5)")).state.processedEvents =
      [("k", 10)] ∧
    (runWatchStep tunDefault cfgAll 0 1000 c3Init
      (WatchAttempt.fail "too old resource version: 123 (5)")).state.ws.initialResources = [] ∧
    (runWatchStep tunDefault cfgAll 0 1000 c3Init
      (WatchAttempt.fail "too old resource version: 123 (5)")).action =
      LoopAction.tooOldReset 1000 := by
  decide

/-- C4 counterexample: an ADDED event at t = 200 s (far past the 30 s grace
period) for a key absent from the snapshot map, whose object was created at
t = 0 — more than 30 s before the watch started at t = 100 s — produces NO
ChangeEvent, contradicting "regardless of the object's creation
timestamp". -/
theorem c4_counterexample_old_object_added_post_grace :
    (processOneEvent cfgAll 100000 200000 emptyProc
      (objEvent "ADDED" "a" "7" (some 0))).2.1 = [] := by
  decide

/-- C5 counterexample: a post-grace MODIFIED event for an untracked key that
is suppressed by the dedup window produces no notification (though the
claim's iff demands one, the key being untracked) and performs no upsert
(the snapshot map stays empty), refuting "in every case the snapshot map
entry for the key is upserted". -/
theorem c5_counterexample_dedup_suppressed_modified :
    (processOneEvent cfgAll 0 40000 c5Dedup (objEvent "MODIFIED" "a" "7" none)).2.1 = [] ∧
    (processOneEvent cfgAll 0 40000 c5Dedup
      (objEvent "MODIFIED" "a" "7" none)).1.ws.initialResources = [] := by
  decide

/-- C6 counterexample: the first delivery of an ADDED event notifies once;
after the janitor evicts its dedup entry (one hour later), redelivering the
identical event produces NO new ChangeEvent, because the snapshot map now
tracks the key — contradicting "redelivering the same event produces a new
ChangeEvent". -/
theorem c6_counterexample_added_redelivery_after_eviction :
    (processOneEvent cfgAll 0 40000 emptyProc c6Ev).2.1.length = 1 ∧
    c6St2.processedEvents = [] ∧
    (processOneEvent cfgAll 0 4000001 c6St2 c6Ev).2.1 = [] := by
  decide

/-- C10 counterexample: under a filter with an exact resource name, an
object event for a different name is discarded BEFORE the dedup key is
recorded, so not every non-bookmark, non-status object event occupies the
dedup window. -/
theorem c10_counterexample_name_filtered_event_not_recorded :
    (processOneEvent cfgNamed 0 40000 emptyProc
      (objEvent "MODIFIED" "b" "7" none)).1.processedEvents = [] := by
  decide

/-! General lemmas about the embedded operations. -/

theorem alookup_aerase_ne {α : Type} (k k0 : String) (m : AList α) (h : k ≠ k0) :
    alookup k (aerase k0 m) = alookup k m := by
  induction m with
  | nil => rfl
  | cons hd tl ih =>
    obtain ⟨k', v'⟩ := hd
    have h0 : ¬ k0 = k := fun hc => h hc.symm
    by_cases hk : k' = k0
    · subst hk
      simp [aerase, alookup, h0, ih]
    · by_cases hkk : k' = k
      · subst hkk
        simp [aerase, alookup, h, alookup]
      · simp [aerase, alookup, hk, hkk, ih]

theorem alookup_ainsert_self {α : Type} (k : String) (v : α) (m : AList α) :
    alookup k (ainsert k v m) = some v := by
  simp [ainsert, alookup]

theorem alookup_ainsert_ne {α : Type} (k k0 : String) (v : α) (m : AList α) (h : k ≠ k0) :
    alookup k (ainsert k0 v m) = alookup k m := by
  have h0 : ¬ k0 = k := fun hc => h hc.symm
  simp [ainsert, alookup, h0, alookup_aerase_ne k k0 m h]

theorem staleClose_reconnectCount (ws : WatchState) :
    (staleClose ws).reconnectCount = ws.reconnectCount := by
  unfold staleClose
  split <;> rfl

theorem processOneEvent_reconnectCount (cfg : ResourceConfig) (w n : Nat)
    (st : ProcState) (e : RawEvent) :
    (processOneEvent cfg w n st e).1.ws.reconnectCount = st.ws.reconnectCount := by
  rcases e with ⟨ty, obj⟩
  cases obj <;>
    simp only [processOneEvent, upsertTracking, eraseTracking] <;>
    (repeat' split) <;> simp

theorem processWatchEvents_reconnectCount (cfg : ResourceConfig) (w : Nat)
    (evs : List (Nat × RawEvent)) (st : ProcState) :
    (processWatchEvents cfg w st evs).1.ws.reconnectCount = st.ws.reconnectCount := by
  induction evs generalizing st with
  | nil => rfl
  | cons hd tl ih =>
    obtain ⟨t, e⟩ := hd
    simp only [processWatchEvents]
    split
    · rw [ih, processOneEvent_reconnectCount]
    · rw [processOneEvent_reconnectCount]

theorem processOneEvent_notifs_le_one (cfg : ResourceConfig) (w n : Nat)
    (st : ProcState) (e : RawEvent) :
    (processOneEvent cfg w n st e).2.1.length ≤ 1 := by
  rcases e with ⟨ty, obj⟩
  cases obj <;>
    simp only [processOneEvent, upsertTracking, eraseTracking] <;>
    (repeat' split) <;> simp

theorem processOneEvent_obj_continues (cfg : ResourceConfig) (w n : Nat)
    (st : ProcState) (ty : String) (m : ObjectMeta) :
    (processOneEvent cfg w n st ⟨ty, WatchObject.object m⟩).2.2 = true := by
  simp only [processOneEvent, upsertTracking, eraseTracking]
  (repeat' split) <;> simp

theorem processOneEvent_prefilter (cfg : ResourceConfig) (w n : Nat)
    (st : ProcState) (ty : String) (m : ObjectMeta)
    (h : ty = "BOOKMARK" ∨ (cfg.resourceName ≠ "" ∧ m.name ≠ cfg.resourceName)) :
    (processOneEvent cfg w n st ⟨ty, WatchObject.object m⟩).2.1 = [] := by
  rcases h with h | h
  · simp [processOneEvent, h]
  · by_cases hb : ty = "BOOKMARK"
    · simp [processOneEvent, hb]
    · simp [processOneEvent, hb, h]

theorem processOneEvent_suppressed (cfg : ResourceConfig) (w n : Nat)
    (st : ProcState) (ty : String) (m : ObjectMeta)
    (hb : ty ≠ "BOOKMARK")
    (hname : cfg.resourceName = "" ∨ m.name = cfg.resourceName)
    (hd : (alookup (eventKeyOf ty cfg.kind m st.ws.reconnectCount) st.processedEvents).isSome = true) :
    (processOneEvent cfg w n st ⟨ty, WatchObject.object m⟩).2.1 = [] := by
  have hfil : ¬ (cfg.resourceName ≠ "" ∧ m.name ≠ cfg.resourceName) := by
    rcases hname with h | h <;> simp [h]
  simp [processOneEvent, hb, hfil, hd]

theorem processOneEvent_main_path (cfg : ResourceConfig) (w n : Nat)
    (st : ProcState) (ty : String) (m : ObjectMeta)
    (hb : ty ≠ "BOOKMARK")
    (hname : cfg.resourceName = "" ∨ m.name = cfg.resourceName)
    (hd : alookup (eventKeyOf ty cfg.kind m st.ws.reconnectCount) st.processedEvents = none) :
    (processOneEvent cfg w n st ⟨ty, WatchObject.object m⟩).1.processedEvents
      = ainsert (eventKeyOf ty cfg.kind m st.ws.reconnectCount) n st.processedEvents := by
  have hfil : ¬ (cfg.resourceName ≠ "" ∧ m.name ≠ cfg.resourceName) := by
    rcases hname with h | h <;> simp [h]
  simp only [processOneEvent, upsertTracking, eraseTracking, hb, hfil, hd]
  (repeat' split) <;> simp_all

theorem processOneEvent_second_delivery (cfg : ResourceConfig) (w t1 t2 : Nat)
    (st : ProcState) (ty : String) (m : ObjectMeta)
    (h1 : (processOneEvent cfg w t1 st ⟨ty, WatchObject.object m⟩).2.1 ≠ []) :
    (processOneEvent cfg w t2 (processOneEvent cfg w t1 st ⟨ty, WatchObject.object m⟩).1
      ⟨ty, WatchObject.object m⟩).2.1 = [] := by
  by_cases hb : ty = "BOOKMARK"
  · exact absurd (processOneEvent_prefilter cfg w t1 st ty m (Or.inl hb)) h1
  · by_cases hname : cfg.resourceName = "" ∨ m.name = cfg.resourceName
    · by_cases hd : alookup (eventKeyOf ty cfg.kind m st.ws.reconnectCount) st.processedEvents = none
      · apply processOneEvent_suppressed cfg w t2 _ ty m hb hname
        rw [processOneEvent_reconnectCount]
        rw [processOneEvent_main_path cfg w t1 st ty m hb hname hd]
        simp [alookup_ainsert_self]
      · have hd' : (alookup (eventKeyOf ty cfg.kind m st.ws.reconnectCount) st.processedEvents).isSome = true := by
          cases hx : alookup (eventKeyOf ty cfg.kind m st.ws.reconnectCount) st.processedEvents
          · exact absurd hx hd
          · simp
        exact absurd (processOneEvent_suppressed cfg w t1 st ty m hb hname hd') h1
    · have hfil : cfg.resourceName ≠ "" ∧ m.name ≠ cfg.resourceName := by
        push_neg at hname
        exact hname
      exact absurd (processOneEvent_prefilter cfg w t1 st ty m (Or.inr hfil)) h1

theorem processWatchEvents_pair_le_one (cfg : ResourceConfig) (w t1 t2 : Nat)
    (st : ProcState) (ty : String) (m : ObjectMeta) :
    (processWatchEvents cfg w st
      [(t1, ⟨ty, WatchObject.object m⟩), (t2, ⟨ty, WatchObject.object m⟩)]).2.length ≤ 1 := by
  simp only [processWatchEvents, processOneEvent_obj_continues, if_true]
  by_cases h1 : (processOneEvent cfg w t1 st ⟨ty, WatchObject.object m⟩).2.1 = []
  · rw [h1]
    simp only [List.nil_append, List.append_nil]
    exact processOneEvent_notifs_le_one cfg w t2 _ _
  · have h2 := processOneEvent_second_delivery cfg w t1 t2 st ty m h1
    rw [h2]
    simp only [List.nil_append, List.append_nil]
    exact processOneEvent_notifs_le_one cfg w t1 _ _

theorem loadRetryAux_error_iff (attempts : Nat → LoadResult) (a r : Nat) :
    exceptIsOk (loadRetryAux attempts a r) = false ↔
      ∀ i, i < r → (attempts (a + i)).isErr = true := by
  induction r generalizing a with
  | zero => simp [loadRetryAux, exceptIsOk]
  | succ r ih =>
    simp only [loadRetryAux]
    cases hx : attempts a with
    | ok rv res =>
      simp only [exceptIsOk]
      constructor
      · intro hfalse
        exact absurd hfalse (by simp)
      · intro hall
        have h0 := hall 0 (by omega)
        rw [Nat.add_zero, hx] at h0
        exact absurd h0 (by simp [LoadResult.isErr])
    | err msg =>
      rw [ih (a + 1)]
      constructor
      · intro hall i hi
        cases i with
        | zero =>
          rw [Nat.add_zero, hx]
          rfl
        | succ j =>
          have h1 := hall j (by omega)
          have heq : a + 1 + j = a + (j + 1) := by omega
          rw [heq] at h1
          exact h1
      · intro hall i hi
        have h1 := hall (i + 1) (by omega)
        have heq : a + (i + 1) = a + 1 + i := by omega
        rw [heq] at h1
        exact h1

theorem gateStep_holding_le {s t : GateState} (hstep : GateStep s t)
    (hs : s.holding ≤ semaphoreCapacity) : t.holding ≤ semaphoreCapacity := by
  cases hstep <;>
    simp only [GateState.holding, semaphoreCapacity] at * <;> omega

/-! Claim theorems. -/

/-- C2 (amended): the hard reset fires only when the stream of a sixth
completed watch connection ends (`ReconnectCount`, incremented per ended
stream, exceeds 5): then the checkpoint version, the snapshot map and the
dedup window are cleared, both counters are zeroed, and the loop sleeps
30 s — but no snapshot re-listing happens (the loop merely rewatches from
the empty resource version).  Watch-open failures never reach this path. -/
theorem c2_stream_end_reset_after_six_reconnects (tun : WatcherTuning)
    (cfg : ResourceConfig) (watchStart now : Nat) (ls : LoopState)
    (events : List (Nat × RawEvent)) (h : ls.ws.reconnectCount = 5) :
    (runWatchStep tun cfg watchStart now ls (WatchAttempt.ok events)).state.lastResourceVersion = "" ∧
    (runWatchStep tun cfg watchStart now ls (WatchAttempt.ok events)).state.ws.initialResources = [] ∧
    (runWatchStep tun cfg watchStart now ls (WatchAttempt.ok events)).state.processedEvents = [] ∧
    (runWatchStep tun cfg watchStart now ls (WatchAttempt.ok events)).state.ws.reconnectCount = 0 ∧
    (runWatchStep tun cfg watchStart now ls (WatchAttempt.ok events)).state.ws.consecutiveFailures = 0 ∧
    (runWatchStep tun cfg watchStart now ls (WatchAttempt.ok events)).action = LoopAction.streamEndReset 30000 := by
  simp only [runWatchStep, processWatchEvents_reconnectCount, staleClose_reconnectCount, h]
  norm_num

/-- Witness for C2's amended theorem at a concrete loop state with
`ReconnectCount = 5` and an empty stream. -/
theorem c2_reset_witness :
    (runWatchStep tunDefault cfgAll 0 1000 c2ResetInit (WatchAttempt.ok [])).state.processedEvents = [] ∧
    (runWatchStep tunDefault cfgAll 0 1000 c2ResetInit (WatchAttempt.ok [])).action =
      LoopAction.streamEndReset 30000 :=
  ⟨(c2_stream_end_reset_after_six_reconnects tunDefault cfgAll 0 1000 c2ResetInit [] rfl).2.2.1,
   (c2_stream_end_reset_after_six_reconnects tunDefault cfgAll 0 1000 c2ResetInit [] rfl).2.2.2.2.2⟩

/-- C3 (amended): a watch failure whose message contains
`too old resource version` resets the session state after a fixed 1 s sleep
(no exponential backoff: the backoff state is untouched): checkpoint version
cleared, snapshot map cleared, both counters zeroed — but the dedup window
(`processedEvents`) is left intact and the snapshot load is not re-run (the
loop continues watching from the empty version). -/
theorem c3_stale_version_reset (tun : WatcherTuning) (cfg : ResourceConfig)
    (watchStart now : Nat) (ls : LoopState) (msg : String)
    (h : goContains msg "too old resource version" = true) :
    (runWatchStep tun cfg watchStart now ls (WatchAttempt.fail msg)).state.lastResourceVersion = "" ∧
    (runWatchStep tun cfg watchStart now ls (WatchAttempt.fail msg)).state.ws.initialResources = [] ∧
    (runWatchStep tun cfg watchStart now ls (WatchAttempt.fail msg)).state.ws.reconnectCount = 0 ∧
    (runWatchStep tun cfg watchStart now ls (WatchAttempt.fail msg)).state.ws.consecutiveFailures = 0 ∧
    (runWatchStep tun cfg watchStart now ls (WatchAttempt.fail msg)).state.processedEvents = ls.processedEvents ∧
    (runWatchStep tun cfg watchStart now ls (WatchAttempt.fail msg)).state.backoff = ls.backoff ∧
    (runWatchStep tun cfg watchStart now ls (WatchAttempt.fail msg)).action = LoopAction.tooOldReset 1000 := by
  simp only [runWatchStep, h]
  norm_num

/-- Witness for C3's amended theorem at a concrete stale-version error. -/
theorem c3_stale_reset_witness :
    (runWatchStep tunDefault cfgAll 0 1000 c3Init
      (WatchAttempt.fail "too old resource version: 123 (5)")).state.ws.initialResources = [] ∧
    (runWatchStep tunDefault cfgAll 0 1000 c3Init
      (WatchAttempt.fail "too old resource version: 123 (5)")).state.processedEvents =
      c3Init.processedEvents :=
  ⟨(c3_stale_version_reset tunDefault cfgAll 0 1000 c3Init
      "too old resource version: 123 (5)" (by decide)).2.1,
   (c3_stale_version_reset tunDefault cfgAll 0 1000 c3Init
      "too old resource version: 123 (5)" (by decide)).2.2.2.2.1⟩

/-- C4 (amended): a non-duplicate ADDED event for a key absent from the
snapshot map, delivered after the 30 s grace period, produces exactly one
ChangeEvent iff the object has no creation timestamp or its creation lies
within 30 s before watch start or later; an object created earlier than
that produces none. -/
theorem c4_post_grace_added_iff_recent_creation (cfg : ResourceConfig)
    (w now : Nat) (st : ProcState) (m : ObjectMeta)
    (hname : cfg.resourceName = "" ∨ m.name = cfg.resourceName)
    (habs : alookup (resourceKeyOf m) st.ws.initialResources = none)
    (hdedup : alookup (eventKeyOf "ADDED" cfg.kind m st.ws.reconnectCount) st.processedEvents = none)
    (hgrace : now - w > 30000) :
    (processOneEvent cfg w now st ⟨"ADDED", WatchObject.object m⟩).2.1.length = 1 ↔
      ∀ ct, m.creationTimestamp = some ct → now - ct < (now - w) + 30000 := by
  have hfil : ¬ (cfg.resourceName ≠ "" ∧ m.name ≠ cfg.resourceName) := by
    rcases hname with h | h <;> simp [h]
  cases hct : m.creationTimestamp with
  | none =>
    simp [processOneEvent, hfil, hdedup, habs, hct, hgrace]
  | some ct =>
    by_cases hlt : now - ct < (now - w) + 30000
    · simp [processOneEvent, hfil, hdedup, habs, hct, hlt]
    · simp [processOneEvent, hfil, hdedup, habs, hct, hlt]

/-- Witness for C4's amended theorem: a fresh object without creation
timestamp, delivered at t = 40 s, produces exactly one ChangeEvent. -/
theorem c4_post_grace_added_witness :
    (processOneEvent cfgAll 0 40000 emptyProc
      ⟨"ADDED", WatchObject.object (metaOf "a" "7" none)⟩).2.1.length = 1 :=
  (c4_post_grace_added_iff_recent_creation cfgAll 0 40000 emptyProc (metaOf "a" "7" none)
    (Or.inl rfl) rfl rfl (by decide)).mpr
    (fun ct h => Option.noConfusion h)

/-- C5 (amended): a MODIFIED event that passes the exact-name filter and is
not suppressed by the dedup window produces no notification during the
first 30 s of the watch; after that it notifies iff the tracked version for
its key differs from the event's resource version or the key is untracked;
and the snapshot map entry for the key is always upserted with the event's
version. -/
theorem c5_modified_classification (cfg : ResourceConfig) (w now : Nat)
    (st : ProcState) (m : ObjectMeta)
    (hname : cfg.resourceName = "" ∨ m.name = cfg.resourceName)
    (hdedup : alookup (eventKeyOf "MODIFIED" cfg.kind m st.ws.reconnectCount) st.processedEvents = none) :
    (now - w ≤ 30000 → (processOneEvent cfg w now st ⟨"MODIFIED", WatchObject.object m⟩).2.1 = []) ∧
    (now - w > 30000 →
      ((processOneEvent cfg w now st ⟨"MODIFIED", WatchObject.object m⟩).2.1 ≠ [] ↔
        ∀ info, alookup (resourceKeyOf m) st.ws.initialResources = some info →
          info.version ≠ m.resourceVersion)) ∧
    alookup (resourceKeyOf m)
      (processOneEvent cfg w now st ⟨"MODIFIED", WatchObject.object m⟩).1.ws.initialResources =
      some ⟨m.resourceVersion, now⟩ := by
  have hfil : ¬ (cfg.resourceName ≠ "" ∧ m.name ≠ cfg.resourceName) := by
    rcases hname with h | h <;> simp [h]
  refine ⟨?_, ?_, ?_⟩
  · intro hle
    have hng : ¬ (now - w > 30000) := by omega
    cases htr : alookup (resourceKeyOf m) st.ws.initialResources with
    | none => simp [processOneEvent, hfil, hdedup, htr, hng]
    | some info => simp [processOneEvent, hfil, hdedup, htr, hng]
  · intro hgt
    cases htr : alookup (resourceKeyOf m) st.ws.initialResources with
    | none => simp [processOneEvent, hfil, hdedup, htr, hgt]
    | some info =>
      by_cases hv : info.version = m.resourceVersion
      · simp [processOneEvent, hfil, hdedup, htr, hgt, hv]
      · simp [processOneEvent, hfil, hdedup, htr, hgt, hv]
  · cases htr : alookup (resourceKeyOf m) st.ws.initialResources with
    | none =>
      simp [processOneEvent, hfil, hdedup, htr, upsertTracking, alookup_ainsert_self]
    | some info =>
      by_cases hv : info.version = m.resourceVersion <;>
        by_cases hgt : now - w > 30000 <;>
          simp [processOneEvent, hfil, hdedup, htr, hv, hgt, upsertTracking, alookup_ainsert_self]

/-- Witness for C5's amended theorem: an untracked object modified at
t = 40 s is upserted into the snapshot map at its event version. -/
theorem c5_modified_witness :
    alookup (resourceKeyOf (metaOf "a" "7" none))
      (processOneEvent cfgAll 0 40000 emptyProc
        ⟨"MODIFIED", WatchObject.object (metaOf "a" "7" none)⟩).1.ws.initialResources =
      some ⟨"7", 40000⟩ :=
  (c5_modified_classification cfgAll 0 40000 emptyProc (metaOf "a" "7" none)
    (Or.inl rfl) rfl).2.2

/-- C6 (amended): delivering the identical object event twice on one stream
(same reconnect generation; no eviction can run inside a stream) produces at
most one ChangeEvent; after eviction, redelivery produces a new ChangeEvent
for DELETED events (a non-duplicate post-grace DELETED always notifies),
while redelivered ADDED/MODIFIED events are absorbed by the snapshot-map
tracking their key at the event's version. -/
theorem c6_pair_at_most_one_and_deleted_renotifies :
    (∀ (cfg : ResourceConfig) (w t1 t2 : Nat) (st : ProcState) (ty : String) (m : ObjectMeta),
      (processWatchEvents cfg w st
        [(t1, ⟨ty, WatchObject.object m⟩), (t2, ⟨ty, WatchObject.object m⟩)]).2.length ≤ 1) ∧
    (∀ (cfg : ResourceConfig) (w now : Nat) (st : ProcState) (m : ObjectMeta),
      (cfg.resourceName = "" ∨ m.name = cfg.resourceName) →
      alookup (eventKeyOf "DELETED" cfg.kind m st.ws.reconnectCount) st.processedEvents = none →
      now - w > 30000 →
      (processOneEvent cfg w now st ⟨"DELETED", WatchObject.object m⟩).2.1.length = 1) := by
  constructor
  · exact processWatchEvents_pair_le_one
  · intro cfg w now st m hname hdedup hgrace
    have hfil : ¬ (cfg.resourceName ≠ "" ∧ m.name ≠ cfg.resourceName) := by
      rcases hname with h | h <;> simp [h]
    simp [processOneEvent, hfil, hdedup, hgrace]

/-- Witness for C6's amended theorem: a non-duplicate DELETED event at
t = 40 s produces exactly one ChangeEvent. -/
theorem c6_deleted_witness :
    (processOneEvent cfgAll 0 40000 emptyProc
      ⟨"DELETED", WatchObject.object (metaOf "a" "7" none)⟩).2.1.length = 1 :=
  c6_pair_at_most_one_and_deleted_renotifies.2 cfgAll 0 40000 emptyProc (metaOf "a" "7" none)
    (Or.inl rfl) rfl (by decide)

/-- C7: the snapshot load uses the exponential backoff
(10 steps, base 1 s, factor 2, jitter 0.1, cap 5 min); it fails — with an
error return, nothing fatal to the process — exactly when all 10 attempts
fail; and the session opens its watch loop iff the snapshot load
succeeded. -/
theorem c7_snapshot_retry_and_watch_gating :
    snapshotBackoff.steps = 10 ∧ snapshotBackoff.durationMs = 1000 ∧
    snapshotBackoff.factor = 2 ∧ snapshotBackoff.jitter = 1 / 10 ∧
    snapshotBackoff.capMs = 300000 ∧
    (∀ attempts : Nat → LoadResult,
      exceptIsOk (loadInitialResourcesWithRetry attempts) = false ↔
        ∀ k, 1 ≤ k → k ≤ 10 → (attempts k).isErr = true) ∧
    (∀ (tun : WatcherTuning) (cfg : ResourceConfig) (attempts : Nat → LoadResult)
        (t : Nat) (atts : List (Nat × WatchAttempt)),
      (watchResource tun cfg attempts t atts).isSome = true ↔
        exceptIsOk (loadInitialResourcesWithRetry attempts) = true) := by
  refine ⟨rfl, rfl, rfl, rfl, rfl, ?_, ?_⟩
  · intro attempts
    have hiff := loadRetryAux_error_iff attempts 1 10
    rw [show loadInitialResourcesWithRetry attempts = loadRetryAux attempts 1 10 from rfl]
    rw [hiff]
    constructor
    · intro h k hk1 hk2
      have h1 := h (k - 1) (by omega)
      have heq : 1 + (k - 1) = k := by omega
      rw [heq] at h1
      exact h1
    · intro h i hi
      exact h (1 + i) (by omega) (by omega)
  · intro tun cfg attempts t atts
    unfold watchResource
    cases hx : loadInitialResourcesWithRetry attempts with
    | error e => simp [exceptIsOk]
    | ok v =>
      obtain ⟨rv, res⟩ := v
      simp [exceptIsOk]

/-- Witness for C7: with a listing that fails every attempt the session
exits without ever opening the watch. -/
theorem c7_all_failures_witness :
    (watchResource tunDefault cfgAll allErrAttempts 0 []).isSome = false := by
  have hiff := c7_snapshot_retry_and_watch_gating.2.2.2.2.2.2 tunDefault cfgAll allErrAttempts 0 []
  have hfalse : exceptIsOk (loadInitialResourcesWithRetry allErrAttempts) = false := by decide
  cases hx : (watchResource tunDefault cfgAll allErrAttempts 0 []).isSome with
  | false => rfl
  | true =>
    rw [hx] at hiff
    have h1 := hiff.mp rfl
    rw [h1] at hfalse
    exact Bool.noConfusion hfalse

/-- C8: at most `semaphoreCapacity = 2` sessions ever hold the admission
gate in any reachable state; a slot is released only by a session exit
(holding can only shrink when `exitedN` grows — the deferred release); and
abandonment is absorbing (the abandoned count never decreases, and the only
transition out of pending that does not acquire the gate is abandonment, so
an abandoned session never starts). -/
theorem c8_admission_gate_bounded :
    (∀ (n : Nat) (s : GateState), GateReachable n s → s.holding ≤ semaphoreCapacity) ∧
    (∀ s t : GateState, GateStep s t →
      (t.holding < s.holding → t.exitedN = s.exitedN + 1) ∧ s.abandonedN ≤ t.abandonedN) := by
  constructor
  · intro n s h
    induction h with
    | init => simp [initGate, GateState.holding, semaphoreCapacity]
    | step hr hstep ih => exact gateStep_holding_le hstep ih
  · intro s t hstep
    cases hstep <;> refine ⟨fun hlt => ?_, ?_⟩ <;>
      simp only [GateState.holding] at * <;> omega

/-- Witness for C8 at the initial state of three pending sessions. -/
theorem c8_gate_witness : (initGate 3).holding ≤ semaphoreCapacity :=
  c8_admission_gate_bounded.1 3 (initGate 3) GateReachable.init

/-- C9: an ADDED event whose key is already tracked in the snapshot map
never produces a notification — at any time, grace period or not — and
changes nothing in the snapshot map beyond that key, which (when the event
is not a dedup duplicate) is refreshed to the event's version and last-seen
time. -/
theorem c9_added_existing_never_notifies (cfg : ResourceConfig) (w now : Nat)
    (st : ProcState) (m : ObjectMeta) (info : ResourceInfo)
    (hname : cfg.resourceName = "" ∨ m.name = cfg.resourceName)
    (htrack : alookup (resourceKeyOf m) st.ws.initialResources = some info) :
    (processOneEvent cfg w now st ⟨"ADDED", WatchObject.object m⟩).2.1 = [] ∧
    (∀ k, k ≠ resourceKeyOf m →
      alookup k (processOneEvent cfg w now st ⟨"ADDED", WatchObject.object m⟩).1.ws.initialResources =
        alookup k st.ws.initialResources) ∧
    (alookup (eventKeyOf "ADDED" cfg.kind m st.ws.reconnectCount) st.processedEvents = none →
      alookup (resourceKeyOf m)
        (processOneEvent cfg w now st ⟨"ADDED", WatchObject.object m⟩).1.ws.initialResources =
        some ⟨m.resourceVersion, now⟩) := by
  have hfil : ¬ (cfg.resourceName ≠ "" ∧ m.name ≠ cfg.resourceName) := by
    rcases hname with h | h <;> simp [h]
  cases hd : alookup (eventKeyOf "ADDED" cfg.kind m st.ws.reconnectCount) st.processedEvents with
  | some t0 =>
    refine ⟨?_, ?_, ?_⟩
    · simp [processOneEvent, hfil, hd]
    · intro k hk
      simp [processOneEvent, hfil, hd]
    · intro hcontra
      exact Option.noConfusion hcontra
  | none =>
    refine ⟨?_, ?_, ?_⟩
    · simp [processOneEvent, hfil, hd, htrack]
    · intro k hk
      simp [processOneEvent, hfil, hd, htrack, upsertTracking, alookup_ainsert_ne k _ _ _ hk]
    · intro _
      simp [processOneEvent, hfil, hd, htrack, upsertTracking, alookup_ainsert_self]

/-- Witness for C9: an ADDED event at t = 40 s (past the grace period) for
the already-tracked object `a` produces no notification. -/
theorem c9_added_existing_witness :
    (processOneEvent cfgAll 0 40000 c9St
      ⟨"ADDED", WatchObject.object (metaOf "a" "7" none)⟩).2.1 = [] :=
  (c9_added_existing_never_notifies cfgAll 0 40000 c9St (metaOf "a" "7" none) ⟨"1", 100⟩
    (Or.inl rfl) rfl).1

/-- C10 (amended): every non-bookmark object event that passes the
exact-name filter has its dedup key recorded before classification runs
(even when classification then produces no notification), and an event
whose dedup key is already present produces no notification at all. -/
theorem c10_dedup_recorded_before_classification (cfg : ResourceConfig)
    (w now : Nat) (st : ProcState) (ty : String) (m : ObjectMeta)
    (hb : ty ≠ "BOOKMARK")
    (hname : cfg.resourceName = "" ∨ m.name = cfg.resourceName) :
    (alookup (eventKeyOf ty cfg.kind m st.ws.reconnectCount) st.processedEvents = none →
      alookup (eventKeyOf ty cfg.kind m st.ws.reconnectCount)
        (processOneEvent cfg w now st ⟨ty, WatchObject.object m⟩).1.processedEvents = some now) ∧
    ((alookup (eventKeyOf ty cfg.kind m st.ws.reconnectCount) st.processedEvents).isSome = true →
      (processOneEvent cfg w now st ⟨ty, WatchObject.object m⟩).2.1 = []) := by
  constructor
  · intro hd
    rw [processOneEvent_main_path cfg w now st ty m hb hname hd]
    exact alookup_ainsert_self _ _ _
  · intro hd
    exact processOneEvent_suppressed cfg w now st ty m hb hname hd

/-- Witness for C10's amended theorem: a MODIFIED event at t = 10 s — still
inside the grace period, so it notifies nothing — is nevertheless recorded
in the dedup window. -/
theorem c10_recorded_witness :
    alookup (eventKeyOf "MODIFIED" cfgAll.kind (metaOf "a" "7" none) emptyProc.ws.reconnectCount)
      (processOneEvent cfgAll 0 10000 emptyProc
        ⟨"MODIFIED", WatchObject.object (metaOf "a" "7" none)⟩).1.processedEvents = some 10000 :=
  (c10_dedup_recorded_before_classification cfgAll 0 10000 emptyProc "MODIFIED"
    (metaOf "a" "7" none) (by decide) (Or.inl rfl)).1 rfl

end KWatch
